import Mathlib

/-!
Verification development for the YouTube-video-downloader launch endpoint and
its process-output relay (Next.js API route `download.ts` plus `ws-server.js`).

JavaScript strings are modelled as `String` (inspected char-wise via
`String.toList`), the file system and environment as a record of predicates
(`Env`), and the regular-expression test on the launch URL as an explicit
alternation over the literal prefixes the regex denotes.
-/

namespace YtDl

/-! ## URL pattern

Embedding of the regex
`/^(https?:\/\/)?(www\.)?(youtube\.com\/watch\?v=|youtu\.be\/|youtube\.com\/embed\/)[a-zA-Z0-9_-]{11}/`
used by the handler.  `RegExp.test` searches for a match, but the `^` anchor
forces it to start at position 0, so the regex accepts exactly the strings
that have one of 3 × 2 × 3 literal prefixes followed by 11 identifier
characters, with arbitrary trailing characters. -/

/-- Character class `[a-zA-Z0-9_-]` of the identifier segment. -/
def isIdChar (c : Char) : Bool := c.isAlphanum || c == '_' || c == '-'

/-- Alternatives of the optional scheme group `(https?:\/\/)?`. -/
def schemeAlts : List (List Char) := [[], "https://".toList, "http://".toList]

/-- Alternatives of the optional `(www\.)?` group. -/
def wwwAlts : List (List Char) := [[], "www.".toList]

/-- Alternatives of the host/path group. -/
def hostAlts : List (List Char) :=
  ["youtube.com/watch?v=".toList, "youtu.be/".toList, "youtube.com/embed/".toList]

/-- The 11-character identifier check `[a-zA-Z0-9_-]{11}`. -/
def idOk (cs : List Char) : Bool := cs.length == 11 && cs.all isIdChar

/-- Match one concrete literal prefix followed by 11 identifier characters,
anchored at the start of `s`; trailing characters are unconstrained. -/
def matchAt (pre s : List Char) : Bool :=
  pre.isPrefixOf s && idOk ((s.drop pre.length).take 11)

/-- `urlPattern.test url` from the handler (part_005 line 517). -/
def urlPatternTest (s : List Char) : Bool :=
  schemeAlts.any fun sc => wwwAlts.any fun w => hostAlts.any fun h =>
    matchAt (sc ++ (w ++ h)) s

example : urlPatternTest "https://www.youtube.com/watch?v=dQw4w9WgXcQ".toList = true := by decide
example : urlPatternTest "youtu.be/dQw4w9WgXcQ".toList = true := by decide
example : urlPatternTest "not a url".toList = false := by decide
example : urlPatternTest "https://youtu.be/shortid".toList = false := by decide
example : urlPatternTest "https://example.com/not-a-video".toList = false := by decide
example : urlPatternTest "//youtube.com/watch?v=dQw4w9WgXcQ".toList = false := by decide
example : urlPatternTest "www.youtube.com/embed/dQw4w9WgXcQtrailingGARBAGE$$$".toList = true := by decide

/-! ## Request, environment and the launch handler

The handler reads `req.method`, `req.body.url` and `req.body.outputDir`.
Body fields are JavaScript values; the handler only distinguishes strings
from non-strings and (via truthiness) the empty string, so a field is
modelled as absent, a string, or some non-string value. -/

/-- A JSON body field value as far as the handler inspects it. -/
inductive ReqVal
  | str (s : String)
  | nonString
deriving DecidableEq

/-- The parts of the HTTP request the handler reads. -/
structure Request where
  method : String
  url : Option ReqVal
  outputDir : Option ReqVal
deriving DecidableEq

/-- File system / OS environment the handler consults.  Each field models one
effectful call made by the handler (`fs.existsSync`, `fs.statSync(..).isFile`,
`fs.statSync(..).isDirectory`, `fs.mkdirSync` success, the write-probe
success, `process.env.HOME` / `process.env.USERPROFILE` with `""` for unset,
`path.resolve(process.cwd(), '..')`, `Date.now()`, creation of the `outputs`
dir and log stream, a synchronous `spawn` throw, and `child.pid`). -/
structure Env where
  pathExists : String → Bool
  isFile : String → Bool
  isDir : String → Bool
  mkdirOk : String → Bool
  probeOk : String → Bool
  homeEnv : String
  userProfileEnv : String
  repoRoot : String
  ts : Nat
  outputsOk : Bool
  spawnThrows : Option String
  childPid : Option Nat

/-- Whitespace recognised by `String.prototype.trim` (common cases). -/
def isWs (c : Char) : Bool := c == ' ' || c == '\t' || c == '\n' || c == '\r'

/-- `s.trim()` on a JS string, modelled char-wise. -/
def jsTrim (s : String) : String :=
  String.mk (((s.toList.dropWhile isWs).reverse.dropWhile isWs).reverse)

/-- `process.env.HOME || process.env.USERPROFILE || ''` (part_005 line 455). -/
def homeOf (e : Env) : String :=
  if e.homeEnv = "" then (if e.userProfileEnv = "" then "" else e.userProfileEnv)
  else e.homeEnv

/-- `expandPath` (part_005 lines 453-459): if the path starts with `~/`, the
first `~` (necessarily at position 0) is replaced with the home directory. -/
def expandPath (e : Env) (p : String) : String :=
  if "~/".toList.isPrefixOf p.toList then homeOf e ++ String.mk (p.toList.drop 1)
  else p

/-- One character of the reserved-character class `[<>:"|?*\x00-\x1f]`
tested by `validateAndCreateDirectory`. -/
def isInvalidPathChar (c : Char) : Bool :=
  c == '<' || c == '>' || c == ':' || c == '"' || c == '|' || c == '?' || c == '*' ||
    c.toNat < 32

/-- Result type of `validateAndCreateDirectory`. -/
inductive VResult
  | valid (message resolvedPath : String)
  | invalid (message : String)
deriving DecidableEq

/-- `validateAndCreateDirectory` (part_005 lines 461-502): expand `~`, reject
blank paths and reserved characters, create a missing directory recursively,
otherwise require an existing directory that passes a create-write-delete
probe.  A `mkdirSync` failure lands in the surrounding catch. -/
def validateAndCreateDirectory (e : Env) (dirPath : String) : VResult :=
  if expandPath e dirPath = "" ∨ jsTrim (expandPath e dirPath) = "" then
    .invalid "Output path cannot be empty"
  else if (expandPath e dirPath).toList.any isInvalidPathChar then
    .invalid "Path contains invalid characters"
  else if e.pathExists (expandPath e dirPath) = false then
    (if e.mkdirOk (expandPath e dirPath) then
      .valid "Directory created successfully" (expandPath e dirPath)
     else .invalid "Failed to access directory: mkdir failed")
  else if e.isDir (expandPath e dirPath) = false then
    .invalid "Path exists but is not a directory"
  else if e.probeOk (expandPath e dirPath) then
    .valid "Directory is writable" (expandPath e dirPath)
  else .invalid "Directory is not writable"

/-- The ordered candidate locations checked by `findBinary`
(part_005 lines 438-447): release paths before debug paths. -/
def candidates (e : Env) : List String :=
  [ e.repoRoot ++ "/target/release/rust_downloader",
    e.repoRoot ++ "/target/release/rust-downloader",
    e.repoRoot ++ "/target/debug/rust_downloader",
    e.repoRoot ++ "/target/debug/rust-downloader" ]

/-- `findBinary` (part_005 lines 438-451): the first candidate that exists
and is a regular file, else `none`. -/
def findBinary (e : Env) : Option String :=
  (candidates e).find? fun p => e.pathExists p && e.isFile p

/-- Which return statement of the handler produced the response.  The names
follow the spec's failure taxonomy; `defaultDirFailed` tags the separate
500-response branch for a failing default directory. -/
inductive FailKind
  | invalidInput
  | dirUnwritable
  | defaultDirFailed
  | binaryNotFound
  | spawnFailed
  | methodNotAllowed
deriving DecidableEq

/-- Observable outcome of one handler invocation: the HTTP response
(status, message, optional `Allow` header, optional body fields) plus the
side effects the claims talk about (which process was spawned with which
arguments, whether the log file was created). -/
structure HResult where
  status : Nat
  message : String
  allowPost : Bool := false
  pid : Option Nat := none
  logPath : Option String := none
  outputDir : Option String := none
  kind : Option FailKind := none
  spawned : Option (String × List String) := none
  logCreated : Bool := false
deriving DecidableEq

/-- Default-directory branch of the handler (part_005 lines 531-538):
validate `expandPath('~/Downloads')`; failure is a 500 response. -/
def defaultDirResolve (e : Env) : Except HResult String :=
  match validateAndCreateDirectory e (expandPath e "~/Downloads") with
  | .valid _ rp => .ok rp
  | .invalid m =>
    .error { status := 500, message := "Failed to use default directory: " ++ m,
             kind := some .defaultDirFailed }

/-- Output-directory resolution (part_005 lines 523-539): a supplied,
non-blank string is validated (failure is a 400 response); anything else
falls back to the default directory. -/
def resolveDir (e : Env) (od : Option ReqVal) : Except HResult String :=
  match od with
  | some (.str d) =>
    if jsTrim d = "" then defaultDirResolve e
    else
      match validateAndCreateDirectory e (jsTrim d) with
      | .valid _ rp => .ok rp
      | .invalid m =>
        .error { status := 400, message := "Invalid output directory: " ++ m,
                 kind := some .dirUnwritable }
  | _ => defaultDirResolve e

/-- The spawn-and-respond tail of the handler (part_005 lines 541-599):
binary lookup, log creation, `spawn(bin, [url, '--output', dir])`, the 202
response, and the catch branch for synchronous failures. -/
def launchTail (e : Env) (u finalDir : String) : HResult :=
  match findBinary e with
  | none =>
    { status := 500,
      message := "Rust binary not found. Build the project first with: cargo build --release",
      kind := some .binaryNotFound }
  | some bin =>
    if !e.outputsOk then
      { status := 500, message := "Failed to start download: outputs directory",
        kind := some .spawnFailed }
    else
      match e.spawnThrows with
      | some msg =>
        { status := 500, message := "Failed to start download: " ++ msg,
          kind := some .spawnFailed, logCreated := true }
      | none =>
        { status := 202, message := "Download started successfully",
          pid := e.childPid,
          logPath := some (e.repoRoot ++ "/outputs/download-" ++ toString e.ts ++ ".log"),
          outputDir := some finalDir,
          spawned := some (bin, [u, "--output", finalDir]),
          logCreated := true }

/-- The launch endpoint handler (part_005 lines 504-599). -/
def handler (e : Env) (req : Request) : HResult :=
  if req.method ≠ "POST" then
    { status := 405, message := "Method not allowed. Use POST.",
      allowPost := true, kind := some .methodNotAllowed }
  else
    match req.url with
    | some (.str u) =>
      if u = "" then
        { status := 400, message := "Missing or invalid `url` in request body",
          kind := some .invalidInput }
      else if !(urlPatternTest u.toList) then
        { status := 400, message := "Invalid YouTube URL format",
          kind := some .invalidInput }
      else
        match resolveDir e req.outputDir with
        | .error r => r
        | .ok finalDir => launchTail e u finalDir
    | _ =>
      { status := 400, message := "Missing or invalid `url` in request body",
        kind := some .invalidInput }

/-! ## The job log stream and the WebSocket broadcast

The per-job log is an `fs.WriteStream` opened in append mode; following
Node's documented `Writable` semantics, a `write` after `end` does not
append (the data is dropped and a stream error is signalled, recorded here
in `writeAfterEnd`), while a second `end` is a no-op.  The subscriber
registry is the `clients` set of `ws-server.js`; the per-connection handlers
`ws.on('close'/'error', () => clients.delete(ws))` (part_005 lines 402-403)
mean a connection whose send fails is deleted from the registry. -/

/-- Which child stream a chunk came from. -/
inductive StreamTag
  | stdoutTag
  | stderrTag
deriving DecidableEq

/-- One item appended to the log file: free text (header, synthetic error
and exit lines) or a raw chunk from one of the child's streams. -/
inductive LogItem
  | text (s : String)
  | chunk (tag : StreamTag) (data : String)
deriving DecidableEq

/-- The state of one job's `fs.WriteStream` log handle. -/
structure LogHandle where
  contents : List LogItem
  ended : Bool
  writeAfterEnd : Bool
deriving DecidableEq

/-- `outStream.write`: appends while open; after `end` the data is dropped
and the write-after-end error is signalled. -/
def writeItem (h : LogHandle) (it : LogItem) : LogHandle :=
  if h.ended then { h with writeAfterEnd := true }
  else { h with contents := h.contents ++ [it] }

/-- `outStream.end()`: marks the stream ended; on an already-ended stream it
is a no-op. -/
def endHandle (h : LogHandle) : LogHandle := { h with ended := true }

/-- WebSocket ready states. -/
inductive ReadyState
  | connecting
  | opened
  | closing
  | closed
deriving DecidableEq

/-- One registered subscriber connection: an identity, its ready state, and
whether a send on it currently succeeds. -/
structure Client where
  cid : Nat
  readyState : ReadyState
  sendOk : Bool
deriving DecidableEq

/-- A value passed to `broadcast` on which the serialization at the top of
the function succeeds: a string, a `Buffer`, or an object carried by its
`JSON.stringify` image.  Values on which `JSON.stringify` throws are
modelled separately by `WsArg` below; the process callbacks of the handler
only ever pass strings (`chunk.toString()` and template literals). -/
inductive WsMsg
  | str (s : String)
  | buf (bytes : List Char)
  | obj (json : String)
deriving DecidableEq

/-- The successful serialization outcomes of part_005 line 408: strings and
Buffers via `toString`, serializable objects via `JSON.stringify`. -/
def serializeMsg : WsMsg → String
  | .str s => s
  | .buf bs => String.mk bs
  | .obj j => j

/-- `c.send(data)`: fails (as an exception / connection error) when the
connection's send is broken. -/
def sendTo (c : Client) (_data : String) : Except String Unit :=
  if c.sendOk then .ok () else .error "send failed"

/-- Result of one `broadcast` call: the registry after the per-connection
error handlers ran, and the delivery attempts `(cid, delivered)` made. -/
structure BroadcastOut where
  clients : List Client
  attempts : List (Nat × Bool)
deriving DecidableEq

/-- One iteration of the `for (const c of clients)` loop in `broadcast`:
only a connection in the OPEN state gets a send, wrapped in try/catch so a
failure is swallowed; a failed connection is removed by its own
`'error'`-handler (`clients.delete(ws)`), every other entry is kept. -/
def broadcastIter (m : WsMsg) (acc : BroadcastOut) (c : Client) : BroadcastOut :=
  if c.readyState = .opened then
    match sendTo c (serializeMsg m) with
    | .ok _ => { clients := acc.clients ++ [c], attempts := acc.attempts ++ [(c.cid, true)] }
    | .error _ => { clients := acc.clients, attempts := acc.attempts ++ [(c.cid, false)] }
  else { clients := acc.clients ++ [c], attempts := acc.attempts }

/-- `broadcast` (part_005 lines 407-414). -/
def broadcast (cs : List Client) (m : WsMsg) : BroadcastOut :=
  cs.foldl (broadcastIter m) ⟨[], []⟩

/-- A JavaScript value handed to `broadcast`, as far as the serialization
ternary can tell: a string, a `Buffer`, an object whose `JSON.stringify`
succeeds (carried by its JSON image), or an object on which
`JSON.stringify` throws a `TypeError` (circular structure, BigInt),
carried by that error's message. -/
inductive WsArg
  | str (s : String)
  | buf (bytes : List Char)
  | obj (json : String)
  | objThrowing (errMessage : String)
deriving DecidableEq

/-- The serialization line at the top of `broadcast` (part_005 line 408):
`typeof msg === 'string' || Buffer.isBuffer(msg) ? msg.toString() :
JSON.stringify(msg)`.  It runs before the send loop and outside the
per-send try/catch, and `JSON.stringify` throws on circular structures and
BigInt values. -/
def stringifyArg : WsArg → Except String String
  | .str s => .ok s
  | .buf bs => .ok (String.mk bs)
  | .obj j => .ok j
  | .objThrowing e => .error e

/-- One whole `broadcast(msg)` call including its serialization step: a
`TypeError` thrown by `JSON.stringify` propagates out of the call (nothing
catches it and no send is attempted); on success the send loop runs on the
serialized data. -/
def broadcastCall (cs : List Client) (m : WsArg) : Except String BroadcastOut :=
  match stringifyArg m with
  | .error e => .error e
  | .ok d => .ok (broadcast cs (.str d))

/-- Events delivered to the handler's child-process callbacks
(part_005 lines 568-584), in arrival order. -/
inductive JobEvent
  | data (tag : StreamTag) (bytes : String)
  | spawnErr (message : String)
  | closeEv (code : Int)
deriving DecidableEq

/-- Per-job state: the log handle plus the (global) subscriber registry. -/
structure JobState where
  handle : LogHandle
  clients : List Client
deriving DecidableEq

/-- A `'data'` callback (part_005 lines 568-575): append the chunk to the
log, then broadcast its text (the broadcast wrapped in try/catch). -/
def dataStep (st : JobState) (tag : StreamTag) (b : String) : JobState × List (Nat × Bool) :=
  let h := writeItem st.handle (.chunk tag b)
  let out := broadcast st.clients (.str b)
  (⟨h, out.clients⟩, out.attempts)

/-- The `'error'` callback (part_005 lines 576-580): write a synthetic
spawn-error line, broadcast it, end the stream. -/
def spawnErrStep (st : JobState) (msg : String) : JobState :=
  let h := writeItem st.handle (.text ("\nSpawn error: " ++ msg ++ "\n"))
  let out := broadcast st.clients (.str ("ERROR: " ++ msg))
  ⟨endHandle h, out.clients⟩

/-- The `'close'` callback (part_005 lines 581-584): write the exit line and
end the stream. -/
def closeStep (st : JobState) (code : Int) : JobState :=
  ⟨endHandle (writeItem st.handle (.text ("\nProcess exited with code " ++ toString code ++ "\n"))),
   st.clients⟩

/-- Dispatch one job event. -/
def step (st : JobState) : JobEvent → JobState
  | .data t b => (dataStep st t b).1
  | .spawnErr m => spawnErrStep st m
  | .closeEv c => closeStep st c

/-- Run a job's callback sequence from a starting state. -/
def runJob (st : JobState) (es : List JobEvent) : JobState := es.foldl step st

/-- The log header written at launch (part_005 lines 555-562). -/
def initLog (url bin outDir cmdline : String) : LogHandle :=
  ⟨[ .text ("Starting download for " ++ url ++ "\n"),
     .text ("Binary: " ++ bin ++ "\n"),
     .text ("Output directory: " ++ outDir ++ "\n\n"),
     .text ("Command: " ++ cmdline ++ "\n\n") ], false, false⟩

/-- Job state right after the handler wired up the callbacks. -/
def initState (url bin outDir cmdline : String) (cs : List Client) : JobState :=
  ⟨initLog url bin outDir cmdline, cs⟩

/-- The chunks recorded in a log for one stream, in log order. -/
def streamChunks (tag : StreamTag) (items : List LogItem) : List String :=
  items.filterMap fun it =>
    match it with
    | .chunk t b => if t = tag then some b else none
    | .text _ => none

/-- Is an event a data event (the log is still open exactly while only data
events have been seen)? -/
def isData : JobEvent → Bool
  | .data _ _ => true
  | _ => false

/-- The chunks of one stream delivered before any exit-like event, in
arrival order. -/
def openData (tag : StreamTag) (es : List JobEvent) : List String :=
  (es.takeWhile isData).filterMap fun e =>
    match e with
    | .data t b => if t = tag then some b else none
    | _ => none

/-! ## Helper lemmas -/

/-- A client survives a broadcast iff it is not an OPEN connection whose
send fails. -/
def survives (c : Client) : Bool := !(decide (c.readyState = ReadyState.opened)) || c.sendOk

/-- Bool test for the OPEN ready state. -/
def isOpenC (c : Client) : Bool := decide (c.readyState = ReadyState.opened)

theorem broadcast_foldl (m : WsMsg) (cs : List Client) (acc : BroadcastOut) :
    cs.foldl (broadcastIter m) acc
      = ⟨acc.clients ++ cs.filter survives,
         acc.attempts ++ (cs.filter isOpenC).map fun c => (c.cid, c.sendOk)⟩ := by
  induction cs generalizing acc with
  | nil => simp
  | cons c cs ih =>
    by_cases hc : c.readyState = ReadyState.opened
    · by_cases hs : c.sendOk = true
      · simp [List.foldl_cons, broadcastIter, hc, hs, sendTo, ih, survives, isOpenC]
      · simp only [Bool.not_eq_true] at hs
        simp [List.foldl_cons, broadcastIter, hc, hs, sendTo, ih, survives, isOpenC]
    · simp [List.foldl_cons, broadcastIter, hc, ih, survives, isOpenC]

theorem broadcast_eq (cs : List Client) (m : WsMsg) :
    broadcast cs m
      = ⟨cs.filter survives, (cs.filter isOpenC).map fun c => (c.cid, c.sendOk)⟩ := by
  simpa using broadcast_foldl m cs ⟨[], []⟩

theorem writeItem_ended (h : LogHandle) (it : LogItem) (he : h.ended = true) :
    (writeItem h it).contents = h.contents ∧ (writeItem h it).ended = true := by
  simp [writeItem, he]

theorem step_ended (st : JobState) (e : JobEvent) (he : st.handle.ended = true) :
    (step st e).handle.contents = st.handle.contents ∧ (step st e).handle.ended = true := by
  cases e with
  | data t b => simp [step, dataStep, writeItem, he]
  | spawnErr m => simp [step, spawnErrStep, writeItem, endHandle, he]
  | closeEv c => simp [step, closeStep, writeItem, endHandle, he]

theorem runJob_ended (st : JobState) (es : List JobEvent) (he : st.handle.ended = true) :
    (runJob st es).handle.contents = st.handle.contents := by
  induction es generalizing st with
  | nil => simp [runJob]
  | cons e es ih =>
    have h1 := step_ended st e he
    calc (runJob st (e :: es)).handle.contents
        = (runJob (step st e) es).handle.contents := by simp [runJob]
      _ = (step st e).handle.contents := ih _ h1.2
      _ = st.handle.contents := h1.1

theorem streamChunks_append (tag : StreamTag) (l₁ l₂ : List LogItem) :
    streamChunks tag (l₁ ++ l₂) = streamChunks tag l₁ ++ streamChunks tag l₂ := by
  simp [streamChunks, List.filterMap_append]

theorem streamChunks_runJob (st : JobState) (es : List JobEvent) (tag : StreamTag)
    (he : st.handle.ended = false) :
    streamChunks tag (runJob st es).handle.contents
      = streamChunks tag st.handle.contents ++ openData tag es := by
  induction es generalizing st with
  | nil => simp [runJob, openData]
  | cons e es ih =>
    cases e with
    | data t b =>
      have hstep : step st (.data t b)
          = ⟨⟨st.handle.contents ++ [.chunk t b], false, st.handle.writeAfterEnd⟩,
             (broadcast st.clients (.str b)).clients⟩ := by
        simp [step, dataStep, writeItem, he]
      have hrec := ih (step st (.data t b)) (by rw [hstep])
      rw [runJob, List.foldl_cons, ← runJob, hrec, hstep]
      simp only [streamChunks_append, openData, List.takeWhile, isData, List.filterMap]
      cases htag : decide (t = tag) with
      | true =>
        simp only [decide_eq_true_eq] at htag
        simp [streamChunks, htag, openData, List.filterMap_cons]
      | false =>
        simp only [decide_eq_false_iff_not] at htag
        simp [streamChunks, htag, openData, List.filterMap_cons]
    | spawnErr m =>
      have hstep : (step st (.spawnErr m)).handle
          = ⟨st.handle.contents ++ [.text ("\nSpawn error: " ++ m ++ "\n")], true,
             st.handle.writeAfterEnd⟩ := by
        simp [step, spawnErrStep, writeItem, endHandle, he]
      have hconst := runJob_ended (step st (.spawnErr m)) es (by rw [hstep])
      rw [runJob, List.foldl_cons, ← runJob, hconst, hstep]
      simp [streamChunks_append, streamChunks, openData, List.takeWhile, isData]
    | closeEv c =>
      have hstep : (step st (.closeEv c)).handle
          = ⟨st.handle.contents
              ++ [.text ("\nProcess exited with code " ++ toString c ++ "\n")], true,
             st.handle.writeAfterEnd⟩ := by
        simp [step, closeStep, writeItem, endHandle, he]
      have hconst := runJob_ended (step st (.closeEv c)) es (by rw [hstep])
      rw [runJob, List.foldl_cons, ← runJob, hconst, hstep]
      simp [streamChunks_append, streamChunks, openData, List.takeWhile, isData]

theorem urlPatternTest_empty : urlPatternTest "".toList = false := by decide

theorem defaultDirResolve_error (e : Env) (r : HResult)
    (h : defaultDirResolve e = .error r) :
    r.status = 500 ∧ r.kind = some .defaultDirFailed ∧ r.spawned = none ∧
      r.logCreated = false ∧ r.allowPost = false := by
  unfold defaultDirResolve at h
  split at h
  · simp at h
  · simp only [Except.error.injEq] at h
    subst h
    simp

theorem resolveDir_error (e : Env) (od : Option ReqVal) (r : HResult)
    (h : resolveDir e od = .error r) :
    ((r.status = 400 ∧ r.kind = some .dirUnwritable) ∨
       (r.status = 500 ∧ r.kind = some .defaultDirFailed)) ∧
      r.spawned = none ∧ r.logCreated = false ∧ r.allowPost = false := by
  unfold resolveDir at h
  split at h
  · rename_i d
    split at h
    · have := defaultDirResolve_error e r h
      exact ⟨Or.inr ⟨this.1, this.2.1⟩, this.2.2.1, this.2.2.2.1, this.2.2.2.2⟩
    · split at h
      · simp at h
      · simp only [Except.error.injEq] at h
        subst h
        simp
  · have := defaultDirResolve_error e r h
    exact ⟨Or.inr ⟨this.1, this.2.1⟩, this.2.2.1, this.2.2.2.1, this.2.2.2.2⟩

theorem launchTail_char (e : Env) (u fd : String) :
    ((launchTail e u fd).kind = some .binaryNotFound ∧ (launchTail e u fd).status = 500 ∧
       (launchTail e u fd).spawned = none ∧ (launchTail e u fd).logCreated = false ∧
       (launchTail e u fd).allowPost = false) ∨
    ((launchTail e u fd).kind = some .spawnFailed ∧ (launchTail e u fd).status = 500 ∧
       (launchTail e u fd).spawned = none ∧ (launchTail e u fd).allowPost = false) ∨
    ((launchTail e u fd).kind = none ∧ (launchTail e u fd).status = 202 ∧
       (launchTail e u fd).message = "Download started successfully" ∧
       (launchTail e u fd).pid = e.childPid ∧
       (launchTail e u fd).logPath.isSome = true ∧
       (launchTail e u fd).outputDir = some fd ∧
       (launchTail e u fd).allowPost = false) := by
  unfold launchTail
  split
  · left; simp
  · split
    · right; left; simp
    · split
      · right; left; simp
      · right; right; simp

theorem handler_post_char (e : Env) (req : Request) (hm : req.method = "POST") :
    ((handler e req).kind = some .invalidInput ∧ (handler e req).status = 400 ∧
       (handler e req).spawned = none ∧ (handler e req).logCreated = false ∧
       (handler e req).allowPost = false) ∨
    ((handler e req).kind = some .dirUnwritable ∧ (handler e req).status = 400 ∧
       (handler e req).spawned = none ∧ (handler e req).logCreated = false ∧
       (handler e req).allowPost = false) ∨
    ((handler e req).kind = some .defaultDirFailed ∧ (handler e req).status = 500 ∧
       (handler e req).spawned = none ∧ (handler e req).logCreated = false ∧
       (handler e req).allowPost = false) ∨
    ((handler e req).kind = some .binaryNotFound ∧ (handler e req).status = 500 ∧
       (handler e req).spawned = none ∧ (handler e req).logCreated = false ∧
       (handler e req).allowPost = false) ∨
    ((handler e req).kind = some .spawnFailed ∧ (handler e req).status = 500 ∧
       (handler e req).spawned = none ∧ (handler e req).allowPost = false) ∨
    ((handler e req).kind = none ∧ (handler e req).status = 202 ∧
       (handler e req).message = "Download started successfully" ∧
       (handler e req).pid = e.childPid ∧
       (handler e req).logPath.isSome = true ∧
       (handler e req).outputDir.isSome = true ∧
       (handler e req).allowPost = false) := by
  unfold handler
  simp only [hm, ne_eq, not_true_eq_false, if_false, ite_false]
  cases hurl : req.url with
  | none => left; simp
  | some v =>
    cases v with
    | nonString => left; simp
    | str u =>
      by_cases hu : u = ""
      · left; simp [hu]
      · by_cases ht : urlPatternTest u.toList
        · simp only [if_neg hu, ht, Bool.not_true, Bool.false_eq_true, if_false, ite_false]
          cases hres : resolveDir e req.outputDir with
          | error r =>
            have hr := resolveDir_error e req.outputDir r hres
            rcases hr.1 with ⟨h1, h2⟩ | ⟨h1, h2⟩
            · right; left
              exact ⟨h2, h1, hr.2.1, hr.2.2.1, hr.2.2.2⟩
            · right; right; left
              exact ⟨h2, h1, hr.2.1, hr.2.2.1, hr.2.2.2⟩
          | ok fd =>
            rcases launchTail_char e u fd with h | h | h
            · right; right; right; left; exact h
            · right; right; right; right; left; exact h
            · right; right; right; right; right
              exact ⟨h.1, h.2.1, h.2.2.1, h.2.2.2.1, h.2.2.2.2.1,
                by rw [h.2.2.2.2.2.1]; rfl, h.2.2.2.2.2.2⟩
        · simp only [Bool.not_eq_true] at ht
          simp only [String.toList] at ht
          left
          simp [if_neg hu, ht]

theorem urlPatternTest_ne_empty (u : String) (ht : urlPatternTest u.toList = true) :
    u ≠ "" := by
  intro h
  rw [h] at ht
  rw [urlPatternTest_empty] at ht
  exact Bool.false_ne_true ht

theorem handler_valid_eq (e : Env) (req : Request) (u : String)
    (hm : req.method = "POST") (hu : req.url = some (.str u))
    (ht : urlPatternTest u.toList = true) :
    handler e req = (match resolveDir e req.outputDir with
                     | .error r => r
                     | .ok fd => launchTail e u fd) := by
  have hue : u ≠ "" := urlPatternTest_ne_empty u ht
  simp only [String.toList] at ht
  unfold handler
  simp only [hm, ne_eq, not_true_eq_false, if_false, ite_false, hu]
  simp [hue, ht]

/-! ## Concrete fixtures used by the witnesses -/

/-- A benign environment: every path exists, is a file and a directory,
creation and probing succeed, spawn succeeds with pid 42. -/
def wEnv : Env :=
  { pathExists := fun _ => true, isFile := fun _ => true, isDir := fun _ => true,
    mkdirOk := fun _ => true, probeOk := fun _ => true,
    homeEnv := "/home/user", userProfileEnv := "", repoRoot := "/repo", ts := 7,
    outputsOk := true, spawnThrows := none, childPid := some 42 }

/-- A POST request with a malformed URL. -/
def wReqBadUrl : Request :=
  { method := "POST", url := some (.str "not a url"), outputDir := none }

/-- A POST request with a valid URL and a supplied output directory. -/
def wReqGoodUrl : Request :=
  { method := "POST", url := some (.str "https://youtu.be/dQw4w9WgXcQ"),
    outputDir := some (.str "/tmp/out") }

/-- An environment in which only `/tmp/out` exists (so no binary candidate
is present) but directories behave: existing paths are directories and are
writable. -/
def wEnvNoBin : Env :=
  { pathExists := fun p => p == "/tmp/out", isFile := fun _ => true,
    isDir := fun _ => true, mkdirOk := fun _ => true, probeOk := fun _ => true,
    homeEnv := "/home/user", userProfileEnv := "", repoRoot := "/repo", ts := 7,
    outputsOk := true, spawnThrows := none, childPid := some 42 }

/-- Environment for the C6 counterexample: no path exists, every directory
creation would succeed. -/
def cEnvC6 : Env :=
  { pathExists := fun _ => false, isFile := fun _ => false, isDir := fun _ => false,
    mkdirOk := fun _ => true, probeOk := fun _ => true,
    homeEnv := "/home/user", userProfileEnv := "", repoRoot := "/repo", ts := 0,
    outputsOk := true, spawnThrows := none, childPid := some 1 }

/-- Request for the C6 counterexample: valid URL, missing-but-creatable
output directory whose name contains `<`. -/
def cReqC6 : Request :=
  { method := "POST", url := some (.str "https://youtu.be/dQw4w9WgXcQ"),
    outputDir := some (.str "out<here") }

/-- A GET request. -/
def wReqGet : Request := { method := "GET", url := none, outputDir := none }

/-- A POST request with a valid URL and a blank output directory. -/
def wReqBlankDir : Request :=
  { method := "POST", url := some (.str "https://youtu.be/dQw4w9WgXcQ"),
    outputDir := some (.str "   ") }

/-- Environment in which every path exists but none is a directory, so the
default `~/Downloads` directory cannot be used. -/
def wEnvBadDefault : Env :=
  { pathExists := fun _ => true, isFile := fun _ => true, isDir := fun _ => false,
    mkdirOk := fun _ => true, probeOk := fun _ => true,
    homeEnv := "/home/user", userProfileEnv := "", repoRoot := "/repo", ts := 7,
    outputsOk := true, spawnThrows := none, childPid := some 42 }

theorem validate_char (e : Env) (p : String)
    (h1 : expandPath e p ≠ "") (h2 : jsTrim (expandPath e p) ≠ "") :
    ((expandPath e p).toList.any isInvalidPathChar = true →
      validateAndCreateDirectory e p = .invalid "Path contains invalid characters") ∧
    ((expandPath e p).toList.any isInvalidPathChar = false →
      (e.pathExists (expandPath e p) = false →
        (e.mkdirOk (expandPath e p) = true →
          validateAndCreateDirectory e p
            = .valid "Directory created successfully" (expandPath e p)) ∧
        (e.mkdirOk (expandPath e p) = false →
          validateAndCreateDirectory e p
            = .invalid "Failed to access directory: mkdir failed")) ∧
      (e.pathExists (expandPath e p) = true →
        (e.isDir (expandPath e p) = false →
          validateAndCreateDirectory e p = .invalid "Path exists but is not a directory") ∧
        (e.isDir (expandPath e p) = true →
          (e.probeOk (expandPath e p) = true →
            validateAndCreateDirectory e p = .valid "Directory is writable" (expandPath e p)) ∧
          (e.probeOk (expandPath e p) = false →
            validateAndCreateDirectory e p = .invalid "Directory is not writable")))) := by
  have hemp : ¬(expandPath e p = "" ∨ jsTrim (expandPath e p) = "") := by
    intro h
    rcases h with h | h
    · exact h1 h
    · exact h2 h
  refine ⟨?_, ?_⟩
  · intro hbad
    unfold validateAndCreateDirectory
    rw [if_neg hemp, if_pos hbad]
  · intro hgood
    have hgood' : ¬((expandPath e p).toList.any isInvalidPathChar = true) := by
      rw [hgood]; exact Bool.false_ne_true
    refine ⟨?_, ?_⟩
    · intro hne
      refine ⟨?_, ?_⟩ <;> intro hmk <;> unfold validateAndCreateDirectory <;>
        rw [if_neg hemp, if_neg hgood', if_pos hne] <;> simp [hmk]
    · intro hex
      have hex' : ¬(e.pathExists (expandPath e p) = false) := by simp [hex]
      refine ⟨?_, ?_⟩
      · intro hnd
        unfold validateAndCreateDirectory
        rw [if_neg hemp, if_neg hgood', if_neg hex', if_pos hnd]
      · intro hd
        have hd' : ¬(e.isDir (expandPath e p) = false) := by simp [hd]
        refine ⟨?_, ?_⟩ <;> intro hpr <;> unfold validateAndCreateDirectory <;>
          rw [if_neg hemp, if_neg hgood', if_neg hex', if_neg hd'] <;> simp [hpr]

theorem validate_empty (e : Env) (p : String)
    (h : expandPath e p = "" ∨ jsTrim (expandPath e p) = "") :
    validateAndCreateDirectory e p = .invalid "Output path cannot be empty" := by
  unfold validateAndCreateDirectory
  rw [if_pos h]

theorem resolveDir_str_eq (e : Env) (d : String) :
    resolveDir e (some (.str d))
      = (if jsTrim d = "" then defaultDirResolve e
         else
           match validateAndCreateDirectory e (jsTrim d) with
           | .valid _ rp => .ok rp
           | .invalid m =>
             .error { status := 400, message := "Invalid output directory: " ++ m,
                      kind := some .dirUnwritable }) := rfl

theorem resolveDir_supplied_invalid (e : Env) (d m : String) (hdt : jsTrim d ≠ "")
    (hv : validateAndCreateDirectory e (jsTrim d) = .invalid m) :
    resolveDir e (some (.str d))
      = .error { status := 400, message := "Invalid output directory: " ++ m,
                 kind := some .dirUnwritable } := by
  rw [resolveDir_str_eq, if_neg hdt, hv]

theorem resolveDir_supplied_valid (e : Env) (d msg rp : String) (hdt : jsTrim d ≠ "")
    (hv : validateAndCreateDirectory e (jsTrim d) = .valid msg rp) :
    resolveDir e (some (.str d)) = .ok rp := by
  rw [resolveDir_str_eq, if_neg hdt, hv]

theorem handler_ok_eq (e : Env) (req : Request) (u fd : String)
    (hm : req.method = "POST") (hu : req.url = some (.str u))
    (ht : urlPatternTest u.toList = true)
    (hres : resolveDir e req.outputDir = .ok fd) :
    handler e req = launchTail e u fd := by
  rw [handler_valid_eq e req u hm hu ht, hres]

theorem handler_error_eq (e : Env) (req : Request) (u : String) (r : HResult)
    (hm : req.method = "POST") (hu : req.url = some (.str u))
    (ht : urlPatternTest u.toList = true)
    (hres : resolveDir e req.outputDir = .error r) :
    handler e req = r := by
  rw [handler_valid_eq e req u hm hu ht, hres]


/-! ## Claim theorems -/

/-- C1: For a POST launch request whose body `url` field is a string, if the
string does not match the accepted YouTube pattern the handler fails with
`InvalidInput` (HTTP 400), spawns no process and creates no log file; if the
string does match the pattern, the handler does not fail with
`InvalidInput`. -/
theorem c1_url_validation (e : Env) (req : Request) (u : String)
    (hm : req.method = "POST") (hu : req.url = some (.str u)) :
    (urlPatternTest u.toList = false →
      (handler e req).status = 400 ∧ (handler e req).kind = some FailKind.invalidInput ∧
      (handler e req).spawned = none ∧ (handler e req).logCreated = false) ∧
    (urlPatternTest u.toList = true →
      (handler e req).kind ≠ some FailKind.invalidInput) := by
  constructor
  · intro ht
    simp only [String.toList] at ht
    by_cases hue : u = ""
    · simp [handler, hm, hu, hue]
    · simp [handler, hm, hu, hue, ht]
  · intro ht
    rw [handler_valid_eq e req u hm hu ht]
    cases hres : resolveDir e req.outputDir with
    | error r =>
      have hr := resolveDir_error e req.outputDir r hres
      rcases hr.1 with ⟨_, hk⟩ | ⟨_, hk⟩ <;> simp [hk]
    | ok fd =>
      rcases launchTail_char e u fd with h | h | h <;> simp [h.1]

/-- C1 witness: the invalid string `"not a url"` yields a 400 `InvalidInput`
response with no spawn, and the valid URL `https://youtu.be/dQw4w9WgXcQ`
does not fail with `InvalidInput`. -/
theorem c1_url_validation_witness :
    ((handler wEnv wReqBadUrl).status = 400 ∧
      (handler wEnv wReqBadUrl).kind = some FailKind.invalidInput ∧
      (handler wEnv wReqBadUrl).spawned = none ∧
      (handler wEnv wReqBadUrl).logCreated = false) ∧
    (handler wEnv wReqGoodUrl).kind ≠ some FailKind.invalidInput :=
  ⟨(c1_url_validation wEnv wReqBadUrl "not a url" rfl rfl).1 (by decide),
   (c1_url_validation wEnv wReqGoodUrl "https://youtu.be/dQw4w9WgXcQ" rfl rfl).2 (by decide)⟩

/-- C2: Within one job and one stream, chunks are appended to the log in
arrival order: the log's same-stream chunk sequence equals the delivered
chunk sequence, so the i-th delivered chunk sits at an earlier log position
than the j-th whenever `i < j`. -/
theorem c2_log_order (url bin outDir cmdline : String) (cs : List Client)
    (es : List JobEvent) (tag : StreamTag) (i j : Nat)
    (hij : i < j) (hj : j < (openData tag es).length) :
    streamChunks tag (runJob (initState url bin outDir cmdline cs) es).handle.contents
        = openData tag es ∧
    ∃ p q, p < q ∧
      (streamChunks tag
          (runJob (initState url bin outDir cmdline cs) es).handle.contents).get? p
        = (openData tag es).get? i ∧
      (streamChunks tag
          (runJob (initState url bin outDir cmdline cs) es).handle.contents).get? q
        = (openData tag es).get? j ∧
      ((openData tag es).get? i).isSome = true ∧
      ((openData tag es).get? j).isSome = true := by
  have hrun := streamChunks_runJob (initState url bin outDir cmdline cs) es tag rfl
  have hinit :
      streamChunks tag (initState url bin outDir cmdline cs).handle.contents = [] := rfl
  rw [hinit, List.nil_append] at hrun
  refine ⟨hrun, i, j, hij, by rw [hrun], by rw [hrun], ?_, ?_⟩
  · rw [List.get?_eq_get (Nat.lt_trans hij hj)]; rfl
  · rw [List.get?_eq_get hj]; rfl

/-- C2 witness: three stdout chunks interleaved with one stderr chunk are
logged in arrival order. -/
theorem c2_log_order_witness :
    streamChunks .stdoutTag
        (runJob (initState "u" "b" "d" "c" [])
          [.data .stdoutTag "A", .data .stderrTag "E", .data .stdoutTag "B",
           .data .stdoutTag "C", .closeEv 0]).handle.contents
      = ["A", "B", "C"] ∧
    (0:Nat) < 2 ∧ 2 < (openData .stdoutTag
        [.data .stdoutTag "A", .data .stderrTag "E", .data .stdoutTag "B",
         .data .stdoutTag "C", .closeEv 0]).length := by
  refine ⟨?_, by decide, by decide⟩
  have h := (c2_log_order "u" "b" "d" "c" []
      [.data .stdoutTag "A", .data .stderrTag "E", .data .stdoutTag "B",
       .data .stdoutTag "C", .closeEv 0] .stdoutTag 0 2 (by decide) (by decide)).1
  rw [h]
  rfl

/-- C3: a delivery failure at one OPEN subscriber during a data-chunk
fan-out is caught, removes exactly that subscriber from the registry, does
not prevent the log append, and every other OPEN subscriber still gets a
successful delivery (one attempt per OPEN subscriber). -/
theorem c3_subscriber_isolation (st : JobState) (tag : StreamTag) (b : String) (f : Client)
    (hopen : f.readyState = ReadyState.opened)
    (hfail : f.sendOk = false)
    (hothers : ∀ c ∈ st.clients, c ≠ f → c.sendOk = true)
    (hlog : st.handle.ended = false) :
    ((dataStep st tag b).1.handle.contents = st.handle.contents ++ [LogItem.chunk tag b]) ∧
    f ∉ (dataStep st tag b).1.clients ∧
    (∀ c ∈ st.clients, c ≠ f → c ∈ (dataStep st tag b).1.clients) ∧
    ((dataStep st tag b).2 = (st.clients.filter isOpenC).map fun c => (c.cid, c.sendOk)) ∧
    (∀ c ∈ st.clients, c ≠ f → isOpenC c = true → (c.cid, true) ∈ (dataStep st tag b).2) := by
  have hd1 : (dataStep st tag b).1.handle = writeItem st.handle (.chunk tag b) := rfl
  have hd2 : (dataStep st tag b).1.clients = st.clients.filter survives := by
    rw [show (dataStep st tag b).1.clients = (broadcast st.clients (.str b)).clients from rfl,
      broadcast_eq]
  have hd3 : (dataStep st tag b).2
      = (st.clients.filter isOpenC).map fun c => (c.cid, c.sendOk) := by
    rw [show (dataStep st tag b).2 = (broadcast st.clients (.str b)).attempts from rfl,
      broadcast_eq]
  refine ⟨by rw [hd1]; simp [writeItem, hlog], ?_, ?_, hd3, ?_⟩
  · rw [hd2]
    intro hin
    rw [List.mem_filter] at hin
    have hs : survives f = true := hin.2
    simp [survives, hopen, hfail] at hs
  · intro c hc hne
    rw [hd2, List.mem_filter]
    exact ⟨hc, by simp [survives, hothers c hc hne]⟩
  · intro c hc hne hopenc
    have hs := hothers c hc hne
    have hmm : (c.cid, c.sendOk) ∈ (st.clients.filter isOpenC).map (fun c => (c.cid, c.sendOk)) :=
      List.mem_map_of_mem _ (List.mem_filter.mpr ⟨hc, hopenc⟩)
    rw [hs] at hmm
    rw [hd3]
    exact hmm

/-- C3 witness: with subscribers 1 (OPEN, healthy), 2 (OPEN, failing) and
3 (OPEN, healthy), a data chunk is logged, subscriber 2 is removed, 1 and 3
survive and both receive the chunk. -/
theorem c3_subscriber_isolation_witness :
    ((dataStep ⟨⟨[], false, false⟩,
        [⟨1, .opened, true⟩, ⟨2, .opened, false⟩, ⟨3, .opened, true⟩]⟩
        .stdoutTag "progress 10%").1.handle.contents = [LogItem.chunk .stdoutTag "progress 10%"]) ∧
    (⟨2, .opened, false⟩ : Client) ∉ (dataStep ⟨⟨[], false, false⟩,
        [⟨1, .opened, true⟩, ⟨2, .opened, false⟩, ⟨3, .opened, true⟩]⟩
        .stdoutTag "progress 10%").1.clients ∧
    ((1:Nat), true) ∈ (dataStep ⟨⟨[], false, false⟩,
        [⟨1, .opened, true⟩, ⟨2, .opened, false⟩, ⟨3, .opened, true⟩]⟩
        .stdoutTag "progress 10%").2 := by
  have h := c3_subscriber_isolation
      ⟨⟨[], false, false⟩, [⟨1, .opened, true⟩, ⟨2, .opened, false⟩, ⟨3, .opened, true⟩]⟩
      .stdoutTag "progress 10%" ⟨2, .opened, false⟩ rfl rfl
      (by intro c hc hne; fin_cases hc <;> simp_all) rfl
  exact ⟨by simpa using h.1, h.2.1,
    h.2.2.2.2 ⟨1, .opened, true⟩ (by simp) (by decide) (by decide)⟩

/-- C4: closing a job's log is idempotent: `end` twice is a no-op, a close
event after a spawn-error event (or a repeated close event) does not write
anything further to the log, and ending an already-ended handle does not
change the handle at all. -/
theorem c4_close_idempotent (h : LogHandle) (st st2 : JobState) (emsg : String)
    (c c1 c2 : Int) (hend : h.ended = true) :
    endHandle (endHandle h) = endHandle h ∧
    endHandle h = h ∧
    (closeStep (spawnErrStep st emsg) c).handle.contents
        = (spawnErrStep st emsg).handle.contents ∧
    (closeStep (closeStep st2 c1) c2).handle.contents
        = (closeStep st2 c1).handle.contents := by
  refine ⟨rfl, ?_, ?_, ?_⟩
  · cases h with
    | mk cont en wae =>
      simp only [endHandle]
      simp_all
  · simp [closeStep, spawnErrStep, writeItem, endHandle]
  · simp [closeStep, writeItem, endHandle]

/-- C4 witness: concrete spawn-error-then-close and close-then-close runs
leave the log contents unchanged, and ending an ended handle is the
identity. -/
theorem c4_close_idempotent_witness :
    endHandle (⟨[], true, false⟩ : LogHandle) = ⟨[], true, false⟩ ∧
    (closeStep (spawnErrStep ⟨⟨[], false, false⟩, []⟩ "boom") 0).handle.contents
        = (spawnErrStep ⟨⟨[], false, false⟩, []⟩ "boom").handle.contents := by
  have h := c4_close_idempotent ⟨[], true, false⟩ ⟨⟨[], false, false⟩, []⟩
      ⟨⟨[], false, false⟩, []⟩ "boom" 0 1 2 rfl
  exact ⟨h.2.1, h.2.2.1⟩

/-- C5: when the executable is absent from every candidate location (first
existing regular file in the ordered release-then-debug list wins), a
launch request that passed URL and directory validation fails with
`BinaryNotFound` (HTTP 500), creates no log file and spawns no process. -/
theorem c5_binary_not_found (e : Env) (req : Request) (u fd : String)
    (hm : req.method = "POST") (hu : req.url = some (.str u))
    (ht : urlPatternTest u.toList = true)
    (hdir : resolveDir e req.outputDir = .ok fd)
    (habsent : ∀ p ∈ candidates e, ¬(e.pathExists p = true ∧ e.isFile p = true)) :
    findBinary e = none ∧
    (handler e req).status = 500 ∧
    (handler e req).kind = some FailKind.binaryNotFound ∧
    (handler e req).message
      = "Rust binary not found. Build the project first with: cargo build --release" ∧
    (handler e req).logCreated = false ∧
    (handler e req).spawned = none := by
  have hfb : findBinary e = none := by
    unfold findBinary
    rw [List.find?_eq_none]
    intro p hp
    simp only [Bool.and_eq_true]
    exact fun hcontra => habsent p hp ⟨hcontra.1, hcontra.2⟩
  rw [handler_ok_eq e req u fd hm hu ht hdir]
  simp [launchTail, hfb]

/-- C5 witness: with no candidate present, the launch of a valid URL into a
writable directory yields the 500 `BinaryNotFound` response with no log and
no spawn. -/
theorem c5_binary_not_found_witness :
    findBinary wEnvNoBin = none ∧
    (handler wEnvNoBin wReqGoodUrl).status = 500 ∧
    (handler wEnvNoBin wReqGoodUrl).kind = some FailKind.binaryNotFound ∧
    (handler wEnvNoBin wReqGoodUrl).message
      = "Rust binary not found. Build the project first with: cargo build --release" ∧
    (handler wEnvNoBin wReqGoodUrl).logCreated = false ∧
    (handler wEnvNoBin wReqGoodUrl).spawned = none :=
  c5_binary_not_found wEnvNoBin wReqGoodUrl "https://youtu.be/dQw4w9WgXcQ" "/tmp/out"
    rfl rfl (by decide) rfl (by decide)

/-- C6 counterexample: the directory `out<here` is missing and would be
creatable, yet the handler rejects the request with a 400
`DirectoryUnwritable` response instead of creating it and proceeding,
because of the reserved-character filter the claim does not mention. -/
theorem c6_counterexample :
    cEnvC6.pathExists (expandPath cEnvC6 (jsTrim "out<here")) = false ∧
    cEnvC6.mkdirOk (expandPath cEnvC6 (jsTrim "out<here")) = true ∧
    (handler cEnvC6 cReqC6).status = 400 ∧
    (handler cEnvC6 cReqC6).kind = some FailKind.dirUnwritable ∧
    (handler cEnvC6 cReqC6).spawned = none := by
  decide

/-- C6 (amended): for a supplied non-blank output-directory string, if its
expansion contains a reserved character (`<>:"|?*` or a control character)
the request fails with `DirectoryUnwritable` (HTTP 400) with no spawn;
otherwise a missing directory is created recursively and the request
proceeds when creation succeeds, failing with `DirectoryUnwritable` when it
does not; and an existing path that is not a directory, or one that fails
the create-write-delete probe, fails with `DirectoryUnwritable` (HTTP 400)
with no process spawned and no log created. -/
theorem c6_amended (e : Env) (req : Request) (u d : String)
    (hm : req.method = "POST") (hu : req.url = some (.str u))
    (ht : urlPatternTest u.toList = true)
    (hod : req.outputDir = some (.str d)) (hdt : jsTrim d ≠ "") :
    ((expandPath e (jsTrim d)).toList.any isInvalidPathChar = true →
      (handler e req).status = 400 ∧ (handler e req).kind = some FailKind.dirUnwritable ∧
      (handler e req).spawned = none ∧ (handler e req).logCreated = false) ∧
    (expandPath e (jsTrim d) ≠ "" → jsTrim (expandPath e (jsTrim d)) ≠ "" →
     (expandPath e (jsTrim d)).toList.any isInvalidPathChar = false →
      ((e.pathExists (expandPath e (jsTrim d)) = false →
        (e.mkdirOk (expandPath e (jsTrim d)) = true →
          validateAndCreateDirectory e (jsTrim d)
            = .valid "Directory created successfully" (expandPath e (jsTrim d)) ∧
          (handler e req).kind ≠ some FailKind.dirUnwritable ∧
          (handler e req).kind ≠ some FailKind.defaultDirFailed) ∧
        (e.mkdirOk (expandPath e (jsTrim d)) = false →
          (handler e req).status = 400 ∧
          (handler e req).kind = some FailKind.dirUnwritable ∧
          (handler e req).spawned = none ∧ (handler e req).logCreated = false)) ∧
       (e.pathExists (expandPath e (jsTrim d)) = true →
        (e.isDir (expandPath e (jsTrim d)) = false →
          (handler e req).status = 400 ∧
          (handler e req).kind = some FailKind.dirUnwritable ∧
          (handler e req).spawned = none ∧ (handler e req).logCreated = false) ∧
        (e.isDir (expandPath e (jsTrim d)) = true →
          e.probeOk (expandPath e (jsTrim d)) = false →
          (handler e req).status = 400 ∧
          (handler e req).kind = some FailKind.dirUnwritable ∧
          (handler e req).spawned = none ∧ (handler e req).logCreated = false)))) := by
  have h400 : ∀ m, validateAndCreateDirectory e (jsTrim d) = .invalid m →
      (handler e req).status = 400 ∧ (handler e req).kind = some FailKind.dirUnwritable ∧
      (handler e req).spawned = none ∧ (handler e req).logCreated = false := by
    intro m hv
    rw [handler_error_eq e req u _ hm hu ht
      (by rw [hod]; exact resolveDir_supplied_invalid e d m hdt hv)]
    simp
  constructor
  · intro hbad
    by_cases hemp : expandPath e (jsTrim d) = "" ∨ jsTrim (expandPath e (jsTrim d)) = ""
    · exact h400 _ (validate_empty e (jsTrim d) hemp)
    · push_neg at hemp
      exact h400 _ ((validate_char e (jsTrim d) hemp.1 hemp.2).1 hbad)
  · intro h1 h2 hgood
    have hchar := (validate_char e (jsTrim d) h1 h2).2 hgood
    refine ⟨?_, ?_⟩
    · intro hne
      refine ⟨?_, ?_⟩
      · intro hmk
        have hv := (hchar.1 hne).1 hmk
        refine ⟨hv, ?_⟩
        rw [handler_ok_eq e req u (expandPath e (jsTrim d)) hm hu ht
          (by rw [hod]; exact resolveDir_supplied_valid e d _ _ hdt hv)]
        rcases launchTail_char e u (expandPath e (jsTrim d)) with h | h | h <;>
          rw [h.1] <;> exact ⟨by decide, by decide⟩
      · intro hmk
        exact h400 _ ((hchar.1 hne).2 hmk)
    · intro hex
      refine ⟨?_, ?_⟩
      · intro hnd
        exact h400 _ ((hchar.2 hex).1 hnd)
      · intro hd hpr
        exact h400 _ (((hchar.2 hex).2 hd).2 hpr)

/-- C6 (amended) witness: the reserved-character path `out<here` is
rejected with 400 `DirectoryUnwritable` and no spawn, even though the
directory is missing and creatable. -/
theorem c6_amended_witness :
    (handler cEnvC6 cReqC6).status = 400 ∧
    (handler cEnvC6 cReqC6).kind = some FailKind.dirUnwritable ∧
    (handler cEnvC6 cReqC6).spawned = none ∧
    (handler cEnvC6 cReqC6).logCreated = false :=
  (c6_amended cEnvC6 cReqC6 "https://youtu.be/dQw4w9WgXcQ" "out<here"
    rfl rfl (by decide) rfl (by decide)).1 (by decide)

/-- C7: the request-to-response mapping of the launch endpoint: non-POST
methods yield 405 with an `Allow: POST` header; `InvalidInput` and
`DirectoryUnwritable` failures yield 400; `BinaryNotFound` and `SpawnFailed`
yield 500, each with a message; success is 202 with a body carrying message,
process id, log path and output directory. -/
theorem c7_response_mapping (e : Env) (req : Request) :
    ((handler e req).kind = some FailKind.methodNotAllowed ↔ req.method ≠ "POST") ∧
    (req.method ≠ "POST" →
      (handler e req).status = 405 ∧ (handler e req).allowPost = true ∧
      (handler e req).message = "Method not allowed. Use POST.") ∧
    ((handler e req).kind = some FailKind.invalidInput → (handler e req).status = 400) ∧
    ((handler e req).kind = some FailKind.dirUnwritable → (handler e req).status = 400) ∧
    ((handler e req).kind = some FailKind.binaryNotFound → (handler e req).status = 500) ∧
    ((handler e req).kind = some FailKind.spawnFailed → (handler e req).status = 500) ∧
    ((handler e req).status = 202 →
      (handler e req).kind = none ∧
      (handler e req).message = "Download started successfully" ∧
      (handler e req).pid = e.childPid ∧
      (handler e req).logPath.isSome = true ∧
      (handler e req).outputDir.isSome = true) := by
  by_cases hm : req.method = "POST"
  · rcases handler_post_char e req hm with h | h | h | h | h | h <;> simp_all
  · have h405 : handler e req
        = { status := 405, message := "Method not allowed. Use POST.",
            allowPost := true, kind := some .methodNotAllowed } := by
      simp [handler, hm]
    rw [h405]
    simp [hm]

/-- C7 witness: a GET request receives 405 with the `Allow: POST` header,
and a fully valid POST request receives the 202 body. -/
theorem c7_response_mapping_witness :
    ((handler wEnv wReqGet).status = 405 ∧ (handler wEnv wReqGet).allowPost = true ∧
      (handler wEnv wReqGet).message = "Method not allowed. Use POST.") ∧
    ((handler wEnv wReqGoodUrl).kind = none ∧
      (handler wEnv wReqGoodUrl).message = "Download started successfully" ∧
      (handler wEnv wReqGoodUrl).pid = wEnv.childPid ∧
      (handler wEnv wReqGoodUrl).logPath.isSome = true ∧
      (handler wEnv wReqGoodUrl).outputDir.isSome = true) :=
  ⟨(c7_response_mapping wEnv wReqGet).2.1 (by decide),
   (c7_response_mapping wEnv wReqGoodUrl).2.2.2.2.2.2 (by decide)⟩

/-- C8: when the request's `outputDir` is absent, not a string, or blank
after trimming, the handler falls back to the default directory
`~/Downloads` expanded via `HOME` (or `USERPROFILE`), and a failure to
validate or create that default directory is a 500 response, not a 400. -/
theorem c8_default_dir (e : Env) (req : Request) (u : String)
    (hm : req.method = "POST") (hu : req.url = some (.str u))
    (ht : urlPatternTest u.toList = true)
    (hdefault : req.outputDir = none ∨ req.outputDir = some .nonString ∨
      ∃ d, req.outputDir = some (.str d) ∧ jsTrim d = "") :
    resolveDir e req.outputDir = defaultDirResolve e ∧
    expandPath e "~/Downloads" = homeOf e ++ "/Downloads" ∧
    (∀ m, validateAndCreateDirectory e (expandPath e "~/Downloads") = .invalid m →
      (handler e req).status = 500 ∧ (handler e req).kind = some FailKind.defaultDirFailed ∧
      (handler e req).spawned = none ∧ (handler e req).logCreated = false) := by
  have hres : resolveDir e req.outputDir = defaultDirResolve e := by
    rcases hdefault with h | h | ⟨d, h, hd⟩
    · rw [h]; rfl
    · rw [h]; rfl
    · rw [h, resolveDir_str_eq, if_pos hd]
  refine ⟨hres, ?_, ?_⟩
  · unfold expandPath
    rw [if_pos (by decide)]
    have hdl : String.mk ("~/Downloads".toList.drop 1) = "/Downloads" := by decide
    rw [hdl]
  · intro m hv
    have herr : defaultDirResolve e
        = .error { status := 500, message := "Failed to use default directory: " ++ m,
                   kind := some .defaultDirFailed } := by
      unfold defaultDirResolve
      rw [hv]
    rw [handler_error_eq e req u _ hm hu ht (by rw [hres, herr])]
    simp

/-- C8 witness: a blank `outputDir` falls back to `/home/user/Downloads`,
and since that path exists but is not a directory the request fails with
500. -/
theorem c8_default_dir_witness :
    (handler wEnvBadDefault wReqBlankDir).status = 500 ∧
    (handler wEnvBadDefault wReqBlankDir).kind = some FailKind.defaultDirFailed ∧
    (handler wEnvBadDefault wReqBlankDir).spawned = none ∧
    (handler wEnvBadDefault wReqBlankDir).logCreated = false :=
  (c8_default_dir wEnvBadDefault wReqBlankDir "https://youtu.be/dQw4w9WgXcQ" rfl rfl
      (by decide) (Or.inr (Or.inr ⟨"   ", rfl, by decide⟩))).2.2
    "Path exists but is not a directory" (by decide)

theorem matchAt_exact (pre vid : List Char) (hid : idOk vid = true) :
    matchAt pre (pre ++ vid) = true := by
  have hvl : vid.length = 11 := by
    unfold idOk at hid
    rw [Bool.and_eq_true] at hid
    simpa using hid.1
  unfold matchAt
  rw [Bool.and_eq_true]
  constructor
  · rw [ List.isPrefixOf_iff_prefix]
    exact List.prefix_append pre vid
  · rw [List.drop_left]
    rw [show vid.take 11 = vid from by rw [← hvl]; exact List.take_length vid]
    exact hid

theorem matchAt_append (pre s t : List Char) (h : matchAt pre s = true) :
    matchAt pre (s ++ t) = true := by
  unfold matchAt at h ⊢
  rw [Bool.and_eq_true] at h
  obtain ⟨hpre, hid⟩ := h
  rw [ List.isPrefixOf_iff_prefix] at hpre
  have hlen : pre.length ≤ s.length := hpre.length_le
  have h11len : ((s.drop pre.length).take 11).length = 11 := by
    unfold idOk at hid
    rw [Bool.and_eq_true] at hid
    simpa using hid.1
  have h11 : 11 ≤ (s.drop pre.length).length := by
    rw [List.length_take] at h11len
    omega
  rw [Bool.and_eq_true]
  constructor
  · rw [ List.isPrefixOf_iff_prefix]
    exact hpre.trans (List.prefix_append s t)
  · rw [List.drop_append_of_le_length hlen, List.take_append_of_le_length h11]
    exact hid

/-- C9: the URL check is prefix-only: any string whose prefix matches the
pattern is accepted no matter what follows (longer identifier segments,
query text, arbitrary garbage), and both the scheme and the `www.` prefix
are optional. -/
theorem c9_prefix_only :
    (∀ s t : List Char, urlPatternTest s = true → urlPatternTest (s ++ t) = true) ∧
    (∀ vid : List Char, idOk vid = true →
      urlPatternTest ("youtube.com/watch?v=".toList ++ vid) = true ∧
      urlPatternTest ("https://www.youtube.com/watch?v=".toList ++ vid) = true ∧
      urlPatternTest ("http://youtu.be/".toList ++ vid) = true ∧
      urlPatternTest ("www.youtube.com/embed/".toList ++ vid) = true) ∧
    urlPatternTest "youtube.com/watch?v=abcdefghijklmnop&t=1s junk".toList = true := by
  refine ⟨?_, ?_, by decide⟩
  · intro s t h
    unfold urlPatternTest at h ⊢
    simp only [List.any_eq_true] at h ⊢
    obtain ⟨sc, hsc, w, hw, ho, hho, hmatch⟩ := h
    exact ⟨sc, hsc, w, hw, ho, hho, matchAt_append _ s t hmatch⟩
  · intro vid hid
    refine ⟨?_, ?_, ?_, ?_⟩ <;>
      (unfold urlPatternTest; simp only [List.any_eq_true])
    · exact ⟨[], by simp [schemeAlts], [], by simp [wwwAlts],
        "youtube.com/watch?v=".toList, by simp [hostAlts],
        by simpa using matchAt_exact ("youtube.com/watch?v=".toList) vid hid⟩
    · refine ⟨"https://".toList, by simp [schemeAlts], "www.".toList, by simp [wwwAlts],
        "youtube.com/watch?v=".toList, by simp [hostAlts], ?_⟩
      have hpre : "https://".toList ++ ("www.".toList ++ "youtube.com/watch?v=".toList)
          = "https://www.youtube.com/watch?v=".toList := by decide
      rw [hpre]
      exact matchAt_exact _ vid hid
    · refine ⟨"http://".toList, by simp [schemeAlts], [], by simp [wwwAlts],
        "youtu.be/".toList, by simp [hostAlts], ?_⟩
      have hpre : "http://".toList ++ ([] ++ "youtu.be/".toList)
          = "http://youtu.be/".toList := by decide
      rw [hpre]
      exact matchAt_exact _ vid hid
    · refine ⟨[], by simp [schemeAlts], "www.".toList, by simp [wwwAlts],
        "youtube.com/embed/".toList, by simp [hostAlts], ?_⟩
      have hpre : ([] : List Char) ++ ("www.".toList ++ "youtube.com/embed/".toList)
          = "www.youtube.com/embed/".toList := by decide
      rw [hpre]
      exact matchAt_exact _ vid hid

/-- C9 witness: appending query text and garbage to an accepted URL keeps it
accepted, and a schemeless `www.`-less accepted core URL exists. -/
theorem c9_prefix_only_witness :
    urlPatternTest ("youtu.be/dQw4w9WgXcQ".toList ++ "&feature=share EXTRA".toList) = true ∧
    urlPatternTest ("youtube.com/watch?v=".toList ++ "dQw4w9WgXcQ".toList) = true :=
  ⟨c9_prefix_only.1 ("youtu.be/dQw4w9WgXcQ".toList) ("&feature=share EXTRA".toList)
      (by decide),
   (c9_prefix_only.2.1 ("dQw4w9WgXcQ".toList) (by decide)).1⟩

/-- C10 counterexample: `broadcast` is not total over message values: for an
object on which `JSON.stringify` throws (here a circular structure), the
call throws even with a healthy OPEN subscriber registered, because the
stringify runs outside the per-send try/catch; a string message on the same
registry returns normally. -/
theorem c10_counterexample :
    broadcastCall [⟨1, ReadyState.opened, true⟩]
        (.objThrowing "Converting circular structure to JSON")
      = Except.error "Converting circular structure to JSON" ∧
    broadcastCall [⟨1, ReadyState.opened, true⟩] (.str "hello")
      = Except.ok ⟨[⟨1, ReadyState.opened, true⟩], [(1, true)]⟩ :=
  ⟨rfl, rfl⟩

/-- C10 (amended): broadcast returns without throwing for every registry
state and every string message, Buffer message, or object whose JSON
serialization succeeds — only an object on which `JSON.stringify` throws
makes the call throw, and then the error propagates out before any delivery
attempt; whenever the send loop runs, it attempts delivery only to
subscribers whose connection is in the OPEN ready state, silently skipping
(and keeping) all others. -/
theorem c10_amended (cs : List Client) (m : WsArg) :
    (∀ d, stringifyArg m = Except.ok d →
      broadcastCall cs m
        = Except.ok ⟨cs.filter survives, (cs.filter isOpenC).map fun c => (c.cid, c.sendOk)⟩) ∧
    (∀ er, stringifyArg m = Except.error er → broadcastCall cs m = Except.error er) ∧
    (∀ er, stringifyArg m = Except.error er → m = .objThrowing er) ∧
    (∀ d, stringifyArg m = Except.ok d → ∀ c ∈ cs, isOpenC c = false →
      c ∈ (broadcast cs (.str d)).clients) := by
  refine ⟨?_, ?_, ?_, ?_⟩
  · intro d hd
    unfold broadcastCall
    rw [hd]
    exact congrArg Except.ok (broadcast_eq cs (.str d))
  · intro er her
    unfold broadcastCall
    rw [her]
  · intro er her
    cases m with
    | str s => simp [stringifyArg] at her
    | buf bs => simp [stringifyArg] at her
    | obj j => simp [stringifyArg] at her
    | objThrowing e =>
      simp only [stringifyArg, Except.error.injEq] at her
      rw [her]
  · intro d _ c hc hno
    rw [broadcast_eq]
    have hs : survives c = true := by
      unfold survives
      unfold isOpenC at hno
      rw [hno]
      rfl
    exact List.mem_filter.mpr ⟨hc, hs⟩

/-- C10 (amended) witness: a serializable object message over a registry
with one OPEN and one CLOSED subscriber returns normally, attempting only
the OPEN one and keeping the CLOSED one; an unserializable object makes the
call throw with its `TypeError` message. -/
theorem c10_amended_witness :
    broadcastCall [⟨1, ReadyState.opened, true⟩, ⟨2, ReadyState.closed, true⟩] (.obj "null")
      = Except.ok ⟨[⟨1, ReadyState.opened, true⟩, ⟨2, ReadyState.closed, true⟩], [(1, true)]⟩ ∧
    broadcastCall [] (.objThrowing "Do not know how to serialize a BigInt")
      = Except.error "Do not know how to serialize a BigInt" := by
  constructor
  · rw [(c10_amended [⟨1, ReadyState.opened, true⟩, ⟨2, ReadyState.closed, true⟩]
      (.obj "null")).1 "null" rfl]
    rfl
  · exact (c10_amended [] (.objThrowing "Do not know how to serialize a BigInt")).2.1
      "Do not know how to serialize a BigInt" rfl

end YtDl
